import Mathlib

/-!
# Verification of the AIMA CodeGen waypoint engine, budget ledger, call layer,
# state store and lock

Shallow embedding of the Python sources of `aima_codegen`:
* `models.py` — the pydantic data model (`Waypoint`, `ProjectState`, `RevisionFeedback`);
* `budget.py` — `BudgetTracker.pre_call_check` / `update_spent`;
* `state.py` — `StateManager.save` / `StateManager.load`;
* `utils.py` — `check_lock_file`;
* `llm/openai_adapter.py` — `OpenAIAdapter.call_llm` retry loop;
* `orchestrator.py` — `_execute_single_waypoint`, `_execute_codegen`,
  `_verify_waypoint` (the revision state machine).

Modelling conventions:
* Python floats (money amounts) are modelled as `ℚ`; the claims under study are
  about control flow and comparisons, not IEEE rounding.
* Python datetimes are modelled by their canonical string representation
  (`json.dump(..., default=str)` stringifies them and pydantic parses the
  canonical form back; the pair is mutually inverse on canonical forms).
* The interactive `Confirm.ask` prompt and the network/tool outcomes are
  oracles passed in as explicit parameters, indexed by call count.
-/

/-! ## Data model (`models.py`) -/

/-- The closed status enumeration declared by `Waypoint.status` in
`models.py` lines 36-39 (a pydantic `Literal`). -/
inductive WStatus where
  | PENDING | RUNNING | SUCCESS | FAILED_CODE | FAILED_TESTS
  | FAILED_LINT | FAILED_TOOLING | FAILED_REVISIONS | FAILED_LLM_OUTPUT | ABORTED
deriving DecidableEq, Repr

/-- The ten status strings of the `Literal` in `models.py` lines 36-39. -/
def waypointStatusLiterals : List String :=
  ["PENDING", "RUNNING", "SUCCESS", "FAILED_CODE", "FAILED_TESTS",
   "FAILED_LINT", "FAILED_TOOLING", "FAILED_REVISIONS", "FAILED_LLM_OUTPUT", "ABORTED"]

/-- Serialization of a status value (pydantic stores the literal string). -/
def WStatus.toString : WStatus → String
  | .PENDING => "PENDING"
  | .RUNNING => "RUNNING"
  | .SUCCESS => "SUCCESS"
  | .FAILED_CODE => "FAILED_CODE"
  | .FAILED_TESTS => "FAILED_TESTS"
  | .FAILED_LINT => "FAILED_LINT"
  | .FAILED_TOOLING => "FAILED_TOOLING"
  | .FAILED_REVISIONS => "FAILED_REVISIONS"
  | .FAILED_LLM_OUTPUT => "FAILED_LLM_OUTPUT"
  | .ABORTED => "ABORTED"

/-- Pydantic validation of the `status` `Literal`: only the ten declared
strings are accepted. -/
def WStatus.ofString : String → Option WStatus
  | "PENDING" => some .PENDING
  | "RUNNING" => some .RUNNING
  | "SUCCESS" => some .SUCCESS
  | "FAILED_CODE" => some .FAILED_CODE
  | "FAILED_TESTS" => some .FAILED_TESTS
  | "FAILED_LINT" => some .FAILED_LINT
  | "FAILED_TOOLING" => some .FAILED_TOOLING
  | "FAILED_REVISIONS" => some .FAILED_REVISIONS
  | "FAILED_LLM_OUTPUT" => some .FAILED_LLM_OUTPUT
  | "ABORTED" => some .ABORTED
  | _ => none

/-- `Waypoint.agent_type`, a `Literal` of four strings (`models.py` line 35). -/
inductive AgentType where
  | CodeGen | TestWriter | Explainer | Planner
deriving DecidableEq, Repr

def AgentType.toString : AgentType → String
  | .CodeGen => "CodeGen"
  | .TestWriter => "TestWriter"
  | .Explainer => "Explainer"
  | .Planner => "Planner"

def AgentType.ofString : String → Option AgentType
  | "CodeGen" => some .CodeGen
  | "TestWriter" => some .TestWriter
  | "Explainer" => some .Explainer
  | "Planner" => some .Planner
  | _ => none

/-- `RevisionFeedback` (`models.py` lines 27-30). The source field
`syntax_error` is rendered here as `syn_error`. -/
structure RevisionFeedback where
  pytest_output : Option String := none
  flake8_output : Option String := none
  syn_error : Option String := none
deriving DecidableEq, Repr

/-- `Waypoint` (`models.py` lines 32-48), as validated by pydantic:
`status` holds a value of the closed enumeration. -/
structure Waypoint where
  id : String
  description : String
  agent_type : AgentType
  status : WStatus := .PENDING
  input_files : List String := []
  output_files : List String := []
  generated_code : Option String := none
  generated_tests : Option String := none
  explanation : Option String := none
  logs : List String := []
  revision_attempts : ℕ := 0
  feedback_history : List RevisionFeedback := []
  cost : ℚ := 0
deriving DecidableEq, Repr

/-- `ProjectState` (`models.py` lines 52-66). Datetimes are modelled by
their canonical string form (see module docstring). -/
structure ProjectState where
  project_name : String
  project_slug : String
  creation_date : String
  last_modified : String
  total_budget_usd : ℚ
  current_spent_usd : ℚ := 0
  initial_prompt : String
  waypoints : List Waypoint := []
  current_waypoint_index : ℕ := 0
  venv_path : String
  python_path : String
  requirements_hash : Option String := none
  api_provider : Option String := none
  model_name : Option String := none
deriving DecidableEq, Repr

/-! ## JSON values (the image of `model_dump` + `json.dump(default=str)`) -/

/-- A JSON value as produced by `json.dump` and consumed by `json.load`. -/
inductive Json where
  | null
  | str (s : String)
  | int (n : ℤ)
  | num (q : ℚ)
  | arr (xs : List Json)
  | obj (fields : List (String × Json))

/-! ## Serialization (`StateManager.save` writes `json.dump(state.model_dump(),
default=str)`; loading runs `ProjectState(**data)` pydantic validation). -/

/-- An `Optional[str]` field under `model_dump`: `None` becomes JSON `null`. -/
def encodeOptStr : Option String → Json
  | none => Json.null
  | some s => Json.str s

/-- A `List[str]` field under `model_dump`. -/
def encodeStrList (xs : List String) : Json :=
  Json.arr (xs.map Json.str)

/-- `RevisionFeedback.model_dump` (field order of `models.py` lines 27-30;
the JSON key of `syn_error` is the source's field name). -/
def RevisionFeedback.toJson (f : RevisionFeedback) : Json :=
  Json.obj [("pytest_output", encodeOptStr f.pytest_output),
            ("flake8_output", encodeOptStr f.flake8_output),
            ("syntax_error", encodeOptStr f.syn_error)]

/-- `Waypoint.model_dump` (field order of `models.py` lines 32-48). -/
def Waypoint.toJson (w : Waypoint) : Json :=
  Json.obj [("id", Json.str w.id),
            ("description", Json.str w.description),
            ("agent_type", Json.str w.agent_type.toString),
            ("status", Json.str w.status.toString),
            ("input_files", encodeStrList w.input_files),
            ("output_files", encodeStrList w.output_files),
            ("generated_code", encodeOptStr w.generated_code),
            ("generated_tests", encodeOptStr w.generated_tests),
            ("explanation", encodeOptStr w.explanation),
            ("logs", encodeStrList w.logs),
            ("revision_attempts", Json.int (Int.ofNat w.revision_attempts)),
            ("feedback_history", Json.arr (w.feedback_history.map RevisionFeedback.toJson)),
            ("cost", Json.num w.cost)]

/-- `ProjectState.model_dump` (field order of `models.py` lines 52-66);
datetimes pass through `json.dump`'s `default=str`. -/
def ProjectState.toJson (s : ProjectState) : Json :=
  Json.obj [("project_name", Json.str s.project_name),
            ("project_slug", Json.str s.project_slug),
            ("creation_date", Json.str s.creation_date),
            ("last_modified", Json.str s.last_modified),
            ("total_budget_usd", Json.num s.total_budget_usd),
            ("current_spent_usd", Json.num s.current_spent_usd),
            ("initial_prompt", Json.str s.initial_prompt),
            ("waypoints", Json.arr (s.waypoints.map Waypoint.toJson)),
            ("current_waypoint_index", Json.int (Int.ofNat s.current_waypoint_index)),
            ("venv_path", Json.str s.venv_path),
            ("python_path", Json.str s.python_path),
            ("requirements_hash", encodeOptStr s.requirements_hash),
            ("api_provider", encodeOptStr s.api_provider),
            ("model_name", encodeOptStr s.model_name)]

/-- Key lookup in a JSON object (python `data[key]` on the parsed dict). -/
def lookupField : List (String × Json) → String → Option Json
  | [], _ => none
  | (k, v) :: rest, key => if k == key then some v else lookupField rest key

def Json.fields : Json → Option (List (String × Json))
  | Json.obj fs => some fs
  | _ => none

/-- Pydantic `str` field validation. -/
def Json.asStr : Json → Option String
  | Json.str s => some s
  | _ => none

/-- Pydantic `Optional[str]` field validation. -/
def Json.asOptStr : Json → Option (Option String)
  | Json.null => some none
  | Json.str s => some (some s)
  | _ => none

/-- Pydantic `int` field validation (the engine only ever stores
non-negative counters, modelled as `ℕ`). -/
def Json.asNat : Json → Option ℕ
  | Json.int n => if 0 ≤ n then some n.toNat else none
  | _ => none

/-- Pydantic `float` field validation (accepts JSON ints and floats). -/
def Json.asRat : Json → Option ℚ
  | Json.int n => some (n : ℚ)
  | Json.num q => some q
  | _ => none

def Json.asArr : Json → Option (List Json)
  | Json.arr xs => some xs
  | _ => none

/-- Element-wise decoding of a JSON array (pydantic list validation). -/
def decodeListWith (f : Json → Option α) : List Json → Option (List α)
  | [] => some []
  | x :: xs =>
    match f x, decodeListWith f xs with
    | some a, some as => some (a :: as)
    | _, _ => none

def Json.asStrList (j : Json) : Option (List String) :=
  j.asArr.bind (decodeListWith Json.asStr)

/-- Fetch and validate a `str` field. -/
def getStrField (fs : List (String × Json)) (k : String) : Option String :=
  (lookupField fs k).bind Json.asStr

/-- Fetch and validate an `Optional[str]` field. -/
def getOptStrField (fs : List (String × Json)) (k : String) : Option (Option String) :=
  (lookupField fs k).bind Json.asOptStr

/-- Fetch and validate an `int` field. -/
def getNatField (fs : List (String × Json)) (k : String) : Option ℕ :=
  (lookupField fs k).bind Json.asNat

/-- Fetch and validate a `float` field. -/
def getRatField (fs : List (String × Json)) (k : String) : Option ℚ :=
  (lookupField fs k).bind Json.asRat

/-- Fetch and validate a `List[str]` field. -/
def getStrListField (fs : List (String × Json)) (k : String) : Option (List String) :=
  (lookupField fs k).bind Json.asStrList

/-- Fetch a field and decode it as a list with the given element decoder. -/
def getListField (fs : List (String × Json)) (k : String)
    (f : Json → Option α) : Option (List α) :=
  ((lookupField fs k).bind Json.asArr).bind (decodeListWith f)

/-- Pydantic validation of a `RevisionFeedback` object. -/
def RevisionFeedback.fromJson (j : Json) : Option RevisionFeedback := do
  let fs ← j.fields
  let p ← getOptStrField fs "pytest_output"
  let fl ← getOptStrField fs "flake8_output"
  let se ← getOptStrField fs "syntax_error"
  pure { pytest_output := p, flake8_output := fl, syn_error := se }

/-- First four `Waypoint` fields (split from `Waypoint.fromJson` to keep each
definition small). The `Literal` fields (`agent_type`, `status`) admit only
their declared strings. -/
def Waypoint.fromJsonHead (fs : List (String × Json)) :
    Option (String × String × AgentType × WStatus) := do
  let id ← getStrField fs "id"
  let description ← getStrField fs "description"
  let agent_type ← (getStrField fs "agent_type").bind AgentType.ofString
  let status ← (getStrField fs "status").bind WStatus.ofString
  pure (id, description, agent_type, status)

/-- The three `Optional[str]` payload fields of `Waypoint`. -/
def Waypoint.fromJsonTexts (fs : List (String × Json)) :
    Option (Option String × Option String × Option String) := do
  let generated_code ← getOptStrField fs "generated_code"
  let generated_tests ← getOptStrField fs "generated_tests"
  let explanation ← getOptStrField fs "explanation"
  pure (generated_code, generated_tests, explanation)

/-- Pydantic validation of a `Waypoint` object (`models.py` lines 32-48). -/
def Waypoint.fromJson (j : Json) : Option Waypoint := do
  let fs ← j.fields
  let (id, description, agent_type, status) ← Waypoint.fromJsonHead fs
  let input_files ← getStrListField fs "input_files"
  let output_files ← getStrListField fs "output_files"
  let (generated_code, generated_tests, explanation) ← Waypoint.fromJsonTexts fs
  let logs ← getStrListField fs "logs"
  let revision_attempts ← getNatField fs "revision_attempts"
  let feedback_history ← getListField fs "feedback_history" RevisionFeedback.fromJson
  let cost ← getRatField fs "cost"
  pure { id := id, description := description, agent_type := agent_type,
         status := status, input_files := input_files,
         output_files := output_files, generated_code := generated_code,
         generated_tests := generated_tests, explanation := explanation,
         logs := logs, revision_attempts := revision_attempts,
         feedback_history := feedback_history, cost := cost }

/-- Identity, date and budget fields of `ProjectState` (split from
`ProjectState.fromJson` to keep each definition small). -/
def ProjectState.fromJsonHead (fs : List (String × Json)) :
    Option (String × String × String × String × ℚ × ℚ × String) := do
  let project_name ← getStrField fs "project_name"
  let project_slug ← getStrField fs "project_slug"
  let creation_date ← getStrField fs "creation_date"
  let last_modified ← getStrField fs "last_modified"
  let total_budget_usd ← getRatField fs "total_budget_usd"
  let current_spent_usd ← getRatField fs "current_spent_usd"
  let initial_prompt ← getStrField fs "initial_prompt"
  pure (project_name, project_slug, creation_date, last_modified,
        total_budget_usd, current_spent_usd, initial_prompt)

/-- Path and provider fields of `ProjectState`. -/
def ProjectState.fromJsonTail (fs : List (String × Json)) :
    Option (String × String × Option String × Option String × Option String) := do
  let venv_path ← getStrField fs "venv_path"
  let python_path ← getStrField fs "python_path"
  let requirements_hash ← getOptStrField fs "requirements_hash"
  let api_provider ← getOptStrField fs "api_provider"
  let model_name ← getOptStrField fs "model_name"
  pure (venv_path, python_path, requirements_hash, api_provider, model_name)

/-- Pydantic validation of a `ProjectState` object (`ProjectState(**data)`). -/
def ProjectState.fromJson (j : Json) : Option ProjectState := do
  let fs ← j.fields
  let (project_name, project_slug, creation_date, last_modified,
       total_budget_usd, current_spent_usd, initial_prompt) ←
    ProjectState.fromJsonHead fs
  let waypoints ← getListField fs "waypoints" Waypoint.fromJson
  let current_waypoint_index ← getNatField fs "current_waypoint_index"
  let (venv_path, python_path, requirements_hash, api_provider, model_name) ←
    ProjectState.fromJsonTail fs
  pure { project_name := project_name, project_slug := project_slug,
         creation_date := creation_date, last_modified := last_modified,
         total_budget_usd := total_budget_usd,
         current_spent_usd := current_spent_usd,
         initial_prompt := initial_prompt, waypoints := waypoints,
         current_waypoint_index := current_waypoint_index,
         venv_path := venv_path, python_path := python_path,
         requirements_hash := requirements_hash, api_provider := api_provider,
         model_name := model_name }

/-! ## Project State Store (`state.py`)

The filesystem is modelled as a partial map from paths to parsed JSON
contents; a path is a list of segments (`StateManager` only ever touches
files directly inside the project directory). -/

def FS : Type := List String → Option Json

/-- Writing (creating or truncating) a file. -/
def FS.write (fs : FS) (p : List String) (j : Json) : FS :=
  fun q => if q = p then some j else fs q

/-- `os.unlink` / the disappearance of the source of `os.rename`. -/
def FS.remove (fs : FS) (p : List String) : FS :=
  fun q => if q = p then none else fs q

/-- `self.state_file = project_path / "project_state.json"` (`state.py` line 20). -/
def stateFilePath (project_path : String) : List String :=
  [project_path, "project_state.json"]

/-- The name `tempfile.mkstemp(dir=self.project_path,
prefix=".project_state_", suffix=".tmp")` picks; `rand` stands for the
random middle part chosen by `mkstemp`. -/
def tempFilePath (project_path rand : String) : List String :=
  [project_path, ".project_state_" ++ rand ++ ".tmp"]

/-- Failure injection points for `StateManager.save`: the `json.dump` write
can raise, and so can the `os.rename`; both land in the same `except` block. -/
inductive SaveFail where
  | noFail | atWrite | atRename
deriving DecidableEq, Repr

/-- `StateManager.save` (`state.py` lines 22-46): `mkstemp` creates the temp
file in the project directory, `json.dump` fills it, `os.rename` moves it
over the state file; on any failure the handler unlinks the temp file and
raises `RuntimeError`. The second component is the raised error, `none` on
success. -/
def StateManager.save (fs : FS) (project_path rand : String)
    (state : ProjectState) (fail : SaveFail) : FS × Option String :=
  let temp := tempFilePath project_path rand
  let fs1 := FS.write fs temp Json.null
  match fail with
  | SaveFail.atWrite =>
      (FS.remove fs1 temp, some "Failed to save state")
  | SaveFail.atRename =>
      let fs2 := FS.write fs1 temp state.toJson
      (FS.remove fs2 temp, some "Failed to save state")
  | SaveFail.noFail =>
      let fs2 := FS.write fs1 temp state.toJson
      (FS.write (FS.remove fs2 temp) (stateFilePath project_path) state.toJson,
       none)

/-- The `RuntimeError` message of `StateManager.load` (`state.py` lines 59-62);
it names the offending state-file path (the quoting around the path is
elided). -/
def loadErrorMsg (path : String) : String :=
  "ERROR: Failed to load project state from " ++ path ++ ". Error: invalid state"

/-- Rendering of the state-file path (python formats the `Path` object). -/
def renderPath : List String → String
  | [] => ""
  | [s] => s
  | s :: rest => s ++ "/" ++ renderPath rest

/-- `StateManager.load` (`state.py` lines 48-62): missing file returns
`None`; a file that exists but cannot be read or validated raises a
`RuntimeError` naming the path (read errors and parse errors land in the
same `except` block). -/
def StateManager.load (fs : FS) (project_path : String) :
    Except String (Option ProjectState) :=
  match fs (stateFilePath project_path) with
  | none => Except.ok none
  | some j =>
    match ProjectState.fromJson j with
    | some ps => Except.ok (some ps)
    | none => Except.error (loadErrorMsg (renderPath (stateFilePath project_path)))

/-! ## Budget Ledger (`budget.py`) -/

/-- One entry of the price table `config.get_model_costs()` (dollars per
1000 tokens). -/
structure ModelCosts where
  prompt_cost_per_1k_tokens : ℚ
  completion_cost_per_1k_tokens : ℚ
deriving DecidableEq, Repr

/-- `BudgetTracker` (`budget.py` lines 15-21). -/
structure BudgetTracker where
  total_budget : ℚ
  current_spent : ℚ
  model_costs : String → Option ModelCosts

/-- `BudgetTracker.pre_call_check` (`budget.py` lines 23-52). An unknown
model raises `ValueError`; otherwise, if the worst-case estimated future
spend exceeds the budget the user is asked to confirm (`Confirm.ask`,
modelled by `confirmAnswer`), else the call is allowed outright. -/
def BudgetTracker.pre_call_check (bt : BudgetTracker) (model : String)
    (prompt_tokens max_completion_tokens : ℕ) (confirmAnswer : Bool) :
    Except String Bool :=
  match bt.model_costs model with
  | none => Except.error ("ERROR: Model " ++ model ++ " not found in model_costs.json.")
  | some costs =>
    let prompt_cost := ((prompt_tokens : ℚ) / 1000) * costs.prompt_cost_per_1k_tokens
    let max_completion_cost :=
      ((max_completion_tokens : ℚ) / 1000) * costs.completion_cost_per_1k_tokens
    let total_call_cost := prompt_cost + max_completion_cost
    let estimated_future_spent := bt.current_spent + total_call_cost
    if estimated_future_spent > bt.total_budget then
      Except.ok confirmAnswer
    else
      Except.ok true

/-- `BudgetTracker.update_spent` (`budget.py` lines 54-66): commits the
actual cost and returns it (an unknown model would raise `KeyError` at
`self.model_costs[model]`). -/
def BudgetTracker.update_spent (bt : BudgetTracker) (model : String)
    (prompt_tokens completion_tokens : ℕ) :
    Except String (BudgetTracker × ℚ) :=
  match bt.model_costs model with
  | none => Except.error "KeyError"
  | some costs =>
    let prompt_cost := ((prompt_tokens : ℚ) / 1000) * costs.prompt_cost_per_1k_tokens
    let completion_cost :=
      ((completion_tokens : ℚ) / 1000) * costs.completion_cost_per_1k_tokens
    let total_cost := prompt_cost + completion_cost
    Except.ok ({ bt with current_spent := bt.current_spent + total_cost }, total_cost)

/-! ## Single-writer lock (`utils.py` `check_lock_file`, lines 39-103) -/

/-- What `check_lock_file` reports (it only prints and returns a `bool`;
the verdicts distinguish the printed diagnostics). -/
inductive LockVerdict where
  | proceed
  | refuseInUse
  | refuseStale
  | refuseFatal
deriving DecidableEq, Repr

/-- Verdict plus the observable filesystem effect (the function never
touches the lock file, so `lockRemoved` records whether any deletion
happened). -/
structure LockCheckResult where
  verdict : LockVerdict
  lockRemoved : Bool
deriving DecidableEq, Repr

/-- Structural model of python `int(pid_str)` on the first lock-file line:
succeeds on a non-empty all-digit string (written structurally so that the
kernel can evaluate it). -/
def pidFromChars : List Char → ℕ → Option ℕ
  | [], acc => some acc
  | c :: cs, acc =>
    if c.isDigit then pidFromChars cs (acc * 10 + (c.toNat - 48)) else none

/-- Python `int(...)` for the pid line of the lock file. -/
def parsePid (s : String) : Option ℕ :=
  match s.data with
  | [] => none
  | cs => pidFromChars cs 0

/-- `check_lock_file` (`utils.py` lines 39-103).
`lockLines` is `read_text().strip().split(chr(10))` of the lock file
(`none` when the file does not exist); `psutilAvailable` selects the
`psutil.pid_exists` path versus the `os.kill(pid, 0)` fallback;
`pidAlive` is `psutil.pid_exists(pid)`; `killErrno` is the errno of the
`OSError` raised by `os.kill`, `none` when the call succeeds. A pid string
that fails `int()` lands in the outer `except` (fatal). -/
def check_lock_file (lockLines : Option (List String))
    (psutilAvailable pidAlive : Bool) (killErrno : Option ℕ) : LockCheckResult :=
  match lockLines with
  | none => { verdict := LockVerdict.proceed, lockRemoved := false }
  | some content =>
    if content.length < 2 then
      { verdict := LockVerdict.refuseStale, lockRemoved := false }
    else
      match parsePid (content.headD "") with
      | none => { verdict := LockVerdict.refuseFatal, lockRemoved := false }
      | some _pid =>
        if psutilAvailable then
          if pidAlive then
            { verdict := LockVerdict.refuseInUse, lockRemoved := false }
          else
            { verdict := LockVerdict.refuseStale, lockRemoved := false }
        else
          match killErrno with
          | none => { verdict := LockVerdict.refuseInUse, lockRemoved := false }
          | some e =>
            if e = 3 then
              { verdict := LockVerdict.refuseStale, lockRemoved := false }
            else
              { verdict := LockVerdict.refuseInUse, lockRemoved := false }

/-! ## Provider call layer (`llm/openai_adapter.py` `call_llm`, lines 29-97) -/

/-- The response value built on success (`models.py` `LLMResponse`, minus
the diagnostic raw payload). -/
structure LLMResp where
  content : Option String
  prompt_tokens : ℕ
  completion_tokens : ℕ
deriving DecidableEq, Repr

/-- What one `chat.completions.create` attempt does, as seen through the
adapter's `except` arms. -/
inductive ApiOutcome where
  | success (content : String) (prompt_tokens completion_tokens : ℕ)
  | authError
  | rateLimit
  | statusError (code : ℕ)
  | timeoutErr
  | connectionError
  | otherError
deriving DecidableEq, Repr

/-- The adapter's error taxonomy (`exceptions.py` classes raised by
`call_llm`). -/
inductive CallError where
  | invalidKey | rateLimited | serverErr | networkErr | apiErr
deriving DecidableEq, Repr

/-- Result of one loop iteration: return, raise immediately, or mark for
retry (raising the mapped error instead when no attempts remain). -/
inductive AttemptStep where
  | done (r : LLMResp)
  | fatal (e : CallError)
  | retryable (e : CallError)
deriving DecidableEq, Repr

/-- The `except` chain of `call_llm` (`openai_adapter.py` lines 58-97):
`AuthenticationError` is fatal; `RateLimitError`, 5xx `APIStatusError`,
`APITimeoutError` and `APIConnectionError` are retryable; a non-5xx
`APIStatusError` and any unclassified exception are fatal. -/
def classifyAttempt : ApiOutcome → AttemptStep
  | ApiOutcome.success c pt ct =>
      AttemptStep.done { content := some c, prompt_tokens := pt, completion_tokens := ct }
  | ApiOutcome.authError => AttemptStep.fatal CallError.invalidKey
  | ApiOutcome.rateLimit => AttemptStep.retryable CallError.rateLimited
  | ApiOutcome.statusError code =>
      if 500 ≤ code then AttemptStep.retryable CallError.serverErr
      else AttemptStep.fatal CallError.apiErr
  | ApiOutcome.timeoutErr => AttemptStep.retryable CallError.networkErr
  | ApiOutcome.connectionError => AttemptStep.retryable CallError.networkErr
  | ApiOutcome.otherError => AttemptStep.fatal CallError.apiErr

/-- `OpenAIAdapter.call_llm` (`openai_adapter.py` lines 29-97), the
`for attempt in range(1, max_attempts + 1)` loop unrolled for
`max_attempts = 3`. `oi` is the outcome of the i-th attempt. Returns the
result, the list of back-off sleeps performed (`delay = min(60, 2 **
attempt)` before retrying), and the number of attempts made. -/
def call_llm (o1 o2 o3 : ApiOutcome) :
    Except CallError LLMResp × List ℕ × ℕ :=
  match classifyAttempt o1 with
  | AttemptStep.done r => (Except.ok r, [], 1)
  | AttemptStep.fatal e => (Except.error e, [], 1)
  | AttemptStep.retryable _ =>
    let d1 := min 60 (2 ^ 1)
    match classifyAttempt o2 with
    | AttemptStep.done r => (Except.ok r, [d1], 2)
    | AttemptStep.fatal e => (Except.error e, [d1], 2)
    | AttemptStep.retryable _ =>
      let d2 := min 60 (2 ^ 2)
      match classifyAttempt o3 with
      | AttemptStep.done r => (Except.ok r, [d1, d2], 3)
      | AttemptStep.fatal e => (Except.error e, [d1, d2], 3)
      | AttemptStep.retryable e3 => (Except.error e3, [d1, d2], 3)

/-! ## Waypoint Execution Engine (`orchestrator.py`)

`_execute_single_waypoint` (lines 533-626) with its callees
`_execute_codegen` (lines 690-759), `_execute_testwriter` (lines 761-837,
structurally identical for the aspects under study) and `_verify_waypoint`
(lines 877-936).

Because pydantic does not validate attribute assignment, the waypoint's
`status` at run time is whatever *string* the orchestrator assigns; the
engine state therefore carries `status : String`, plus a ghost trace of
every assignment. External effects are oracles indexed by call count:
`agentResults` for `codegen.execute`/`testwriter.execute`,
`verifyResults` for `_verify_waypoint`'s tool runs, `promptTokens` for
`count_tokens`, and `userConfirm` for the `Confirm.ask` override prompt.

Scope notes (paths not exercised by the claims): generated payloads are
taken to declare no new dependencies (lines 754-755 skip) and the context
builder's 8 KB guard (line 678) does not fire. -/

/-- What one `codegen.execute` / `testwriter.execute` call returns:
a parsed payload (file paths written, token count), a structurally invalid
payload (`success False` with `raw_content`), or another failure
(`success False` without `raw_content`). -/
inductive AgentOutcome where
  | okGen (files : List String) (tokensUsed : ℕ)
  | badJson (raw : String)
  | errOther
deriving DecidableEq, Repr

/-- `_verify_waypoint`'s failure classification (its `error_type` key). -/
inductive VerifyKind where
  | synErr | lintErr | testErr | toolingErr
deriving DecidableEq, Repr

/-- What one `_verify_waypoint` run observes. -/
inductive VerifyOutcome where
  | pass
  | fail (k : VerifyKind) (detail : String)
deriving DecidableEq, Repr

/-- Oracles for the engine's external effects, indexed by call count. -/
structure EngEnv where
  agentResults : ℕ → AgentOutcome
  verifyResults : ℕ → VerifyOutcome
  promptTokens : ℕ → ℕ
  userConfirm : ℕ → Bool

/-- Run configuration: the selected model and its (present) price entry,
and the project budget cap. -/
structure EngCfg where
  model : String
  total_budget : ℚ
  price : ModelCosts
deriving DecidableEq, Repr

/-- The mutable state `_execute_single_waypoint` works on: the waypoint's
runtime fields, the budget tracker's spend, and ghost call counters plus
the trace of every `waypoint.status = ...` assignment. -/
structure EngState where
  status : String
  statusTrace : List String
  revision_attempts : ℕ
  feedback_history : List RevisionFeedback
  output_files : List String
  wpCost : ℚ
  spent : ℚ
  agentCalls : ℕ
  checks : ℕ
  verifyCalls : ℕ
deriving DecidableEq, Repr

/-- `waypoint.status = s` (records the assignment in the ghost trace). -/
def EngState.setStatus (st : EngState) (s : String) : EngState :=
  { st with status := s, statusTrace := st.statusTrace ++ [s] }

/-- `max_revisions = 3` (`orchestrator.py` line 537). -/
def maxRevisions : ℕ := 3

/-- The budget tracker state the orchestrator holds, as a `BudgetTracker`
whose price table contains the configured model. -/
def engTracker (cfg : EngCfg) (st : EngState) : BudgetTracker :=
  { total_budget := cfg.total_budget, current_spent := st.spent,
    model_costs := fun _ => some cfg.price }

/-- The pre-call budget gate of `_execute_codegen` (lines 698-702):
`pre_call_check(model_name, prompt_tokens, 4000)`. -/
def engPreCheck (cfg : EngCfg) (env : EngEnv) (st : EngState) : Bool :=
  match (engTracker cfg st).pre_call_check cfg.model
      (env.promptTokens st.checks) 4000 (env.userConfirm st.checks) with
  | Except.ok b => b
  | Except.error _ => false

/-- The post-call commit of `_execute_codegen` (lines 738-744):
`update_spent(model, tokens_used // 2, tokens_used // 2)`, then
`waypoint.cost += cost` and mirroring the tracker's spend into the
project state. -/
def engUpdateSpent (cfg : EngCfg) (st : EngState) (tokensUsed : ℕ) : EngState :=
  match (engTracker cfg st).update_spent cfg.model (tokensUsed / 2) (tokensUsed / 2) with
  | Except.ok (bt, cost) =>
      { st with spent := bt.current_spent, wpCost := st.wpCost + cost }
  | Except.error _ => st

/-- Result dictionary of `_execute_codegen` as consumed by the caller:
`success`, and the `llm_output_error` flag when present. -/
inductive GenResult where
  | genOk
  | genFail (llm_output_error : Bool)
deriving DecidableEq, Repr

/-- `_execute_codegen` (lines 690-759) / `_execute_testwriter`
(lines 761-837): budget gate (on deny: `waypoint.status = "ABORTED"`),
one agent call, one structural-repair retry on invalid JSON, commit of the
actual cost and recording of written files on success. -/
def execGen (cfg : EngCfg) (env : EngEnv) (st : EngState) : EngState × GenResult :=
  let allowed := engPreCheck cfg env st
  let st := { st with checks := st.checks + 1 }
  if !allowed then
    (st.setStatus "ABORTED", GenResult.genFail false)
  else
    let r1 := env.agentResults st.agentCalls
    let st := { st with agentCalls := st.agentCalls + 1 }
    match r1 with
    | AgentOutcome.okGen files tok =>
        let st := engUpdateSpent cfg st tok
        ({ st with output_files := st.output_files ++ files }, GenResult.genOk)
    | AgentOutcome.errOther => (st, GenResult.genFail false)
    | AgentOutcome.badJson _ =>
        let r2 := env.agentResults st.agentCalls
        let st := { st with agentCalls := st.agentCalls + 1 }
        match r2 with
        | AgentOutcome.okGen files tok =>
            let st := engUpdateSpent cfg st tok
            ({ st with output_files := st.output_files ++ files }, GenResult.genOk)
        | AgentOutcome.badJson _ => (st, GenResult.genFail true)
        | AgentOutcome.errOther => (st, GenResult.genFail true)

/-- The `RevisionFeedback` built at lines 601-605 from
`_verify_waypoint`'s result dictionary (a tooling failure populates none
of the three fields — its dictionary carries only `error`). -/
def feedbackFor (k : VerifyKind) (detail : String) : RevisionFeedback :=
  match k with
  | VerifyKind.testErr => { pytest_output := some detail }
  | VerifyKind.lintErr => { flake8_output := some detail }
  | VerifyKind.synErr => { syn_error := some detail }
  | VerifyKind.toolingErr => { }

/-- The status assigned at lines 608-616 for a failed verification. -/
def statusForKind : VerifyKind → String
  | VerifyKind.lintErr => "FAILED_LINT"
  | VerifyKind.testErr => "FAILED_TESTS"
  | VerifyKind.synErr => "FAILED_CODE"
  | VerifyKind.toolingErr => "FAILED_TOOLING_ERROR"

/-- `_verify_waypoint` (lines 877-936): consumes one verification outcome;
when a tool run raises `ToolingError` it assigns
`waypoint.status = "FAILED_TOOLING_ERROR"` (lines 909, 929) before
returning the `tooling` result. -/
def verifyWaypoint (env : EngEnv) (st : EngState) : EngState × VerifyOutcome :=
  let out := env.verifyResults st.verifyCalls
  let st := { st with verifyCalls := st.verifyCalls + 1 }
  match out with
  | VerifyOutcome.fail VerifyKind.toolingErr _ =>
      (st.setStatus "FAILED_TOOLING_ERROR", out)
  | _ => (st, out)

/-- The `for revision in range(max_revisions + 1)` loop body of
`_execute_single_waypoint` (lines 548-624), recursing on the list of
remaining revision indices. -/
def revisionLoop (cfg : EngCfg) (env : EngEnv) (agent : AgentType) :
    List ℕ → EngState → EngState × Bool
  | [], st => (st, false)
  | revision :: rest, st =>
    let st := { st with revision_attempts := revision }
    if agent = AgentType.CodeGen ∨ agent = AgentType.TestWriter then
      match execGen cfg env st with
      | (st, GenResult.genFail llmErr) =>
        if llmErr then (st.setStatus "FAILED_LLM_OUTPUT", false)
        else if revision < maxRevisions then revisionLoop cfg env agent rest st
        else (st.setStatus "FAILED_REVISIONS", false)
      | (st, GenResult.genOk) =>
        match verifyWaypoint env st with
        | (st, VerifyOutcome.pass) => (st, true)
        | (st, VerifyOutcome.fail k detail) =>
          let st := { st with
            feedback_history := st.feedback_history ++ [feedbackFor k detail] }
          let st := st.setStatus (statusForKind k)
          if revision < maxRevisions then revisionLoop cfg env agent rest st
          else (st.setStatus "FAILED_REVISIONS", false)
    else
      (st.setStatus "FAILED_TOOLING_ERROR", false)

/-- `_execute_single_waypoint` (lines 533-626). -/
def execute_single_waypoint (cfg : EngCfg) (env : EngEnv) (agent : AgentType)
    (st : EngState) : EngState × Bool :=
  revisionLoop cfg env agent (List.range (maxRevisions + 1)) st

/-- The driver step of `execute_waypoints` for one waypoint
(lines 510-521): set `RUNNING`, run, set `SUCCESS` on a `True` return. -/
def runWaypoint (cfg : EngCfg) (env : EngEnv) (agent : AgentType)
    (st : EngState) : EngState × Bool :=
  let st := st.setStatus "RUNNING"
  match execute_single_waypoint cfg env agent st with
  | (st, true) => (st.setStatus "SUCCESS", true)
  | (st, false) => (st, false)

/-- A fresh engine state for a pending waypoint, with the tracker's spend
at `spent`. -/
def initState (spent : ℚ) : EngState :=
  { status := "PENDING", statusTrace := [], revision_attempts := 0,
    feedback_history := [], output_files := [], wpCost := 0, spent := spent,
    agentCalls := 0, checks := 0, verifyCalls := 0 }

/-- `badJson`-shaped agent result (`success False` with `raw_content`). -/
def AgentOutcome.isBadJson : AgentOutcome → Bool
  | AgentOutcome.badJson _ => true
  | _ => false

/-- Any failed agent result (`success False`, with or without
`raw_content`). -/
def AgentOutcome.isFailure : AgentOutcome → Bool
  | AgentOutcome.badJson _ => true
  | AgentOutcome.errOther => true
  | AgentOutcome.okGen _ _ => false

/-- Whether a loop iteration classified the attempt as retryable. -/
def AttemptStep.isRetryable : AttemptStep → Bool
  | AttemptStep.retryable _ => true
  | _ => false

/-! ## Concrete scenarios (counterexample and witness inputs) -/

/-- A run configuration with an ample budget and one-dollar-per-1k prices. -/
def cfg0 : EngCfg :=
  { model := "gpt-test", total_budget := 100,
    price := { prompt_cost_per_1k_tokens := 1, completion_cost_per_1k_tokens := 1 } }

/-- Generation always succeeds; the first verification run is a tooling
failure (`ToolingError` from the lint step) and the second passes. -/
def envTooling : EngEnv :=
  { agentResults := fun _ => AgentOutcome.okGen ["a.py"] 100,
    verifyResults := fun n =>
      if n = 0 then VerifyOutcome.fail VerifyKind.toolingErr "flake8 timed out"
      else VerifyOutcome.pass,
    promptTokens := fun _ => 10,
    userConfirm := fun _ => false }

/-- The prompt is so large that every budget pre-check is over the cap,
and the user declines every override prompt. -/
def envDeny : EngEnv :=
  { agentResults := fun _ => AgentOutcome.okGen ["a.py"] 100,
    verifyResults := fun _ => VerifyOutcome.pass,
    promptTokens := fun _ => 999999,
    userConfirm := fun _ => false }

/-- Every agent call returns a structurally invalid payload. -/
def envBadJson : EngEnv :=
  { agentResults := fun _ => AgentOutcome.badJson "not json",
    verifyResults := fun _ => VerifyOutcome.pass,
    promptTokens := fun _ => 10,
    userConfirm := fun _ => false }

/-- Zero-cost generation; first verification run is a tooling failure,
the second passes. -/
def envC1w : EngEnv :=
  { agentResults := fun _ => AgentOutcome.okGen [] 0,
    verifyResults := fun n =>
      if n = 0 then VerifyOutcome.fail VerifyKind.toolingErr "t"
      else VerifyOutcome.pass,
    promptTokens := fun _ => 0,
    userConfirm := fun _ => false }

/-- The engine state after the first generation call of `envC1w` (one
budget check, one agent call, nothing spent). -/
def C1wSt1 : EngState :=
  { status := "RUNNING", statusTrace := ["RUNNING"], revision_attempts := 0,
    feedback_history := [], output_files := [], wpCost := 0, spent := 0,
    agentCalls := 1, checks := 1, verifyCalls := 0 }

/-- A tracker with a ten-dollar cap and one known model. -/
def btW : BudgetTracker :=
  { total_budget := 10, current_spent := 0,
    model_costs := fun m =>
      if m = "gpt-test" then
        some { prompt_cost_per_1k_tokens := 1, completion_cost_per_1k_tokens := 2 }
      else none }

/-- An empty filesystem. -/
def fsEmpty : FS := fun _ => none

/-- A small concrete project state. -/
def sW : ProjectState :=
  { project_name := "Demo", project_slug := "demo",
    creation_date := "2024-01-01 00:00:00",
    last_modified := "2024-01-01 00:00:00",
    total_budget_usd := 10, initial_prompt := "build it",
    venv_path := "demo/.venv", python_path := "/usr/bin/python3" }

/-- The engine state with which the revision loop continues after a
tooling-classified verification failure: verification counter advanced,
`FAILED_TOOLING_ERROR` assigned twice (once inside `_verify_waypoint`,
once by the failure classification), and an empty feedback record
appended. -/
def toolingContinue (st1 : EngState) (detail : String) : EngState :=
  let stV := EngState.setStatus
    { st1 with verifyCalls := st1.verifyCalls + 1 } "FAILED_TOOLING_ERROR"
  let stF := { stV with
    feedback_history := stV.feedback_history
      ++ [feedbackFor VerifyKind.toolingErr detail] }
  stF.setStatus "FAILED_TOOLING_ERROR"

/-! ## Round-trip lemmas for the serializer pair -/

theorem asOptStr_encodeOptStr (o : Option String) :
    Json.asOptStr (encodeOptStr o) = some o := by
  cases o <;> rfl

theorem decodeListWith_map (f : Json → Option α) (g : α → Json)
    (h : ∀ a, f (g a) = some a) (xs : List α) :
    decodeListWith f (xs.map g) = some xs := by
  induction xs with
  | nil => rfl
  | cons x xs ih => simp [decodeListWith, h x, ih]

theorem asStrList_encodeStrList (xs : List String) :
    Json.asStrList (encodeStrList xs) = some xs := by
  simp [Json.asStrList, encodeStrList, Json.asArr,
        decodeListWith_map Json.asStr Json.str (fun a => rfl)]

theorem asNat_int_ofNat (n : ℕ) :
    Json.asNat (Json.int (n : ℤ)) = some n := by
  simp [Json.asNat]

theorem wstatus_ofString_toString (s : WStatus) :
    WStatus.ofString s.toString = some s := by
  cases s <;> rfl

theorem agentType_ofString_toString (a : AgentType) :
    AgentType.ofString a.toString = some a := by
  cases a <;> rfl

theorem feedback_fromJson_toJson (f : RevisionFeedback) :
    RevisionFeedback.fromJson f.toJson = some f := by
  obtain ⟨p, fl, se⟩ := f
  simp [RevisionFeedback.fromJson, RevisionFeedback.toJson, getOptStrField,
        lookupField, Json.fields, asOptStr_encodeOptStr]

theorem waypoint_fromJson_toJson (w : Waypoint) :
    Waypoint.fromJson w.toJson = some w := by
  obtain ⟨id, de, at_, st, inf, outf, gc, gt, ex, lg, ra, fh, c⟩ := w
  simp [Waypoint.fromJson, Waypoint.toJson, Waypoint.fromJsonHead,
        Waypoint.fromJsonTexts, getStrField, getOptStrField, getNatField,
        getRatField, getStrListField, getListField, lookupField, Json.fields,
        Json.asStr, Json.asRat, Json.asArr, asOptStr_encodeOptStr,
        asStrList_encodeStrList, asNat_int_ofNat, wstatus_ofString_toString,
        agentType_ofString_toString,
        decodeListWith_map RevisionFeedback.fromJson RevisionFeedback.toJson
          feedback_fromJson_toJson]

theorem projectState_fromJson_toJson (s : ProjectState) :
    ProjectState.fromJson s.toJson = some s := by
  obtain ⟨pn, ps, cd, lm, tb, cs, ip, wps, cwi, vp, pp, rh, ap, mn⟩ := s
  simp [ProjectState.fromJson, ProjectState.toJson, ProjectState.fromJsonHead,
        ProjectState.fromJsonTail, getStrField, getOptStrField, getNatField,
        getRatField, getListField, lookupField, Json.fields,
        Json.asStr, Json.asRat, Json.asArr, asOptStr_encodeOptStr,
        asNat_int_ofNat,
        decodeListWith_map Waypoint.fromJson Waypoint.toJson
          waypoint_fromJson_toJson]
/-! ## Claim C4 -/

/-- C4: `pre_call_check` allows outright whenever the worst-case estimated
spend stays within the budget; once it would exceed the budget the result
is exactly the user's explicit confirmation (allow on an explicit yes,
deny otherwise). -/
theorem pre_call_check_policy (bt : BudgetTracker) (model : String)
    (prompt_tokens max_completion_tokens : ℕ) (confirmAnswer : Bool)
    (costs : ModelCosts) (hmodel : bt.model_costs model = some costs) :
    (bt.current_spent
        + (((prompt_tokens : ℚ) / 1000) * costs.prompt_cost_per_1k_tokens
           + ((max_completion_tokens : ℚ) / 1000) * costs.completion_cost_per_1k_tokens)
        ≤ bt.total_budget →
      bt.pre_call_check model prompt_tokens max_completion_tokens confirmAnswer
        = Except.ok true)
    ∧ (bt.total_budget
        < bt.current_spent
          + (((prompt_tokens : ℚ) / 1000) * costs.prompt_cost_per_1k_tokens
             + ((max_completion_tokens : ℚ) / 1000) * costs.completion_cost_per_1k_tokens) →
      bt.pre_call_check model prompt_tokens max_completion_tokens confirmAnswer
        = Except.ok confirmAnswer) := by
  unfold BudgetTracker.pre_call_check
  rw [hmodel]
  dsimp only
  constructor
  · intro h
    rw [if_neg (not_lt.mpr h)]
  · intro h
    rw [if_pos h]

/-- C4 witness: with a known model priced 1$/2$ per 1k tokens and a 10$
cap, a 3$ worst case is allowed outright, and an 11$ worst case follows
the user's answer. -/
theorem pre_call_check_policy_witness :
    btW.pre_call_check "gpt-test" 1000 1000 false = Except.ok true
    ∧ btW.pre_call_check "gpt-test" 9000 1000 false = Except.ok false
    ∧ btW.pre_call_check "gpt-test" 9000 1000 true = Except.ok true := by
  refine ⟨?_, ?_, ?_⟩
  · exact (pre_call_check_policy btW "gpt-test" 1000 1000 false _ rfl).1 (by norm_num [btW])
  · exact (pre_call_check_policy btW "gpt-test" 9000 1000 false _ rfl).2 (by norm_num [btW])
  · exact (pre_call_check_policy btW "gpt-test" 9000 1000 true _ rfl).2 (by norm_num [btW])

/-! ## Claim C6 -/

/-- C6: `call_llm` makes at most 3 attempts; the sleeps performed are
exactly `min(60, 2 ^ attempt)` before each retry; a second attempt exists
only after a retryable first outcome and a third only after a retryable
second; a fatal classification (invalid credentials, non-5xx status,
unclassified exception) on the first attempt is raised immediately with
no sleep and no retry. -/
theorem call_llm_retry_policy (o1 o2 o3 : ApiOutcome) :
    (call_llm o1 o2 o3).2.2 ≤ 3
    ∧ (call_llm o1 o2 o3).2.1
        = (List.range ((call_llm o1 o2 o3).2.2 - 1)).map (fun i => min 60 (2 ^ (i + 1)))
    ∧ (2 ≤ (call_llm o1 o2 o3).2.2 → (classifyAttempt o1).isRetryable = true)
    ∧ ((call_llm o1 o2 o3).2.2 = 3 → (classifyAttempt o2).isRetryable = true)
    ∧ (∀ e, classifyAttempt o1 = AttemptStep.fatal e →
        call_llm o1 o2 o3 = (Except.error e, [], 1)) := by
  rcases h1 : classifyAttempt o1 with r1 | e1 | e1 <;>
    rcases h2 : classifyAttempt o2 with r2 | e2 | e2 <;>
      rcases h3 : classifyAttempt o3 with r3 | e3 | e3 <;>
        simp [call_llm, h1, h2, h3, AttemptStep.isRetryable] <;> decide

/-- C6 witness: two rate limits then success sleeps 2s and 4s across 3
attempts; an authentication failure on attempt 1 is raised at once. -/
theorem call_llm_retry_policy_witness :
    (call_llm ApiOutcome.rateLimit ApiOutcome.rateLimit
        (ApiOutcome.success "ok" 5 7)).2.2 = 3
    ∧ (call_llm ApiOutcome.rateLimit ApiOutcome.rateLimit
        (ApiOutcome.success "ok" 5 7)).2.1 = [2, 4]
    ∧ call_llm ApiOutcome.authError ApiOutcome.rateLimit ApiOutcome.rateLimit
        = (Except.error CallError.invalidKey, [], 1) := by
  refine ⟨?_, ?_, ?_⟩
  · decide
  · have h := (call_llm_retry_policy ApiOutcome.rateLimit ApiOutcome.rateLimit
      (ApiOutcome.success "ok" 5 7)).2.1
    rw [h]; decide
  · exact (call_llm_retry_policy ApiOutcome.authError ApiOutcome.rateLimit
      ApiOutcome.rateLimit).2.2.2.2 CallError.invalidKey rfl

/-! ## Claims C7, C8, C10 (state store) -/

/-- The temp file of one `save` is never the state file itself: its name
has a different length. -/
theorem tempFilePath_ne_stateFilePath (p rand : String) :
    tempFilePath p rand ≠ stateFilePath p := by
  intro h
  simp only [tempFilePath, stateFilePath, List.cons.injEq, and_true] at h
  have hlen := congrArg String.length h.2
  rw [String.length_append, String.length_append] at hlen
  have e1 : (".project_state_" : String).length = 15 := rfl
  have e2 : (".tmp" : String).length = 4 := rfl
  have e3 : ("project_state.json" : String).length = 18 := rfl
  rw [e1, e2, e3] at hlen
  omega

/-- C7: loading right after a completed save returns exactly the saved
`ProjectState`. -/
theorem load_after_save (fs : FS) (p rand : String) (s : ProjectState) :
    StateManager.load (StateManager.save fs p rand s SaveFail.noFail).1 p
      = Except.ok (some s) := by
  simp [StateManager.save, StateManager.load, FS.write,
        projectState_fromJson_toJson]

/-- C8: `save` works through a temp file inside the project directory and
renames it over the target, so the previous state file is fully replaced
on success and untouched on either failure point; on failure the temp
file is deleted and the error is reported to the caller. -/
theorem save_atomic_tempfile (fs : FS) (p rand : String) (s : ProjectState) :
    (tempFilePath p rand).head? = some p
    ∧ ((StateManager.save fs p rand s SaveFail.noFail).2 = none
       ∧ (StateManager.save fs p rand s SaveFail.noFail).1 (stateFilePath p)
           = some s.toJson
       ∧ (StateManager.save fs p rand s SaveFail.noFail).1 (tempFilePath p rand)
           = none)
    ∧ ((StateManager.save fs p rand s SaveFail.atWrite).2
           = some "Failed to save state"
       ∧ (StateManager.save fs p rand s SaveFail.atWrite).1 (stateFilePath p)
           = fs (stateFilePath p)
       ∧ (StateManager.save fs p rand s SaveFail.atWrite).1 (tempFilePath p rand)
           = none)
    ∧ ((StateManager.save fs p rand s SaveFail.atRename).2
           = some "Failed to save state"
       ∧ (StateManager.save fs p rand s SaveFail.atRename).1 (stateFilePath p)
           = fs (stateFilePath p)
       ∧ (StateManager.save fs p rand s SaveFail.atRename).1 (tempFilePath p rand)
           = none) := by
  have hne := tempFilePath_ne_stateFilePath p rand
  have hne' : stateFilePath p ≠ tempFilePath p rand := Ne.symm hne
  refine ⟨rfl, ⟨rfl, ?_, ?_⟩, ⟨rfl, ?_, ?_⟩, ⟨rfl, ?_, ?_⟩⟩ <;>
    simp [StateManager.save, FS.write, FS.remove, hne, hne']

/-- C10: `load` returns `None` exactly when the state file is missing; an
existing but unreadable or invalid file raises an error whose message
names the offending path. -/
theorem load_missing_vs_invalid (fs : FS) (p : String) :
    (fs (stateFilePath p) = none → StateManager.load fs p = Except.ok none)
    ∧ (∀ j s, fs (stateFilePath p) = some j → ProjectState.fromJson j = some s →
        StateManager.load fs p = Except.ok (some s))
    ∧ (∀ j, fs (stateFilePath p) = some j → ProjectState.fromJson j = none →
        StateManager.load fs p
          = Except.error (loadErrorMsg (renderPath (stateFilePath p))))
    ∧ (∀ path, ∃ pre post, loadErrorMsg path = pre ++ path ++ post) := by
  refine ⟨?_, ?_, ?_, ?_⟩
  · intro h; simp [StateManager.load, h]
  · intro j s hj hs; simp [StateManager.load, hj, hs]
  · intro j hj hn; simp [StateManager.load, hj, hn]
  · intro path
    exact ⟨"ERROR: Failed to load project state from ", ". Error: invalid state", rfl⟩

/-- C10 witness: an absent file loads as `None`; a well-formed file loads
back; a `null` file content is rejected with the path-naming error. -/
theorem load_missing_vs_invalid_witness :
    StateManager.load fsEmpty "demo" = Except.ok none
    ∧ StateManager.load (fun _ => some sW.toJson) "demo" = Except.ok (some sW)
    ∧ StateManager.load (fun _ => some Json.null) "demo"
        = Except.error (loadErrorMsg (renderPath (stateFilePath "demo"))) := by
  refine ⟨?_, ?_, ?_⟩
  · exact (load_missing_vs_invalid fsEmpty "demo").1 rfl
  · exact (load_missing_vs_invalid _ "demo").2.1 sW.toJson sW rfl
      (projectState_fromJson_toJson sW)
  · exact (load_missing_vs_invalid _ "demo").2.2.1 Json.null rfl rfl

/-! ## Claim C9 (lock) -/

/-- C9: with a well-formed lock file present, a live owning pid is refused
as in-use and a dead one as a stale lock needing manual removal (both on
the `psutil` path and on the `os.kill` fallback, where a dead process
surfaces as errno 3); and no code path of `check_lock_file` ever removes
the lock file. -/
theorem check_lock_refusals (content : List String) (pid : ℕ) (alive : Bool)
    (h2 : 2 ≤ content.length) (hpid : parsePid (content.headD "") = some pid) :
    ((check_lock_file (some content) true alive none).verdict
        = if alive then LockVerdict.refuseInUse else LockVerdict.refuseStale)
    ∧ ((check_lock_file (some content) false alive
          (if alive then none else some 3)).verdict
        = if alive then LockVerdict.refuseInUse else LockVerdict.refuseStale)
    ∧ (∀ lockLines psutilAvailable pidAlive killErrno,
        (check_lock_file lockLines psutilAvailable pidAlive killErrno).lockRemoved
          = false) := by
  have hlt : ¬ content.length < 2 := by omega
  rw [List.headD_eq_head?] at hpid
  refine ⟨?_, ?_, ?_⟩
  · cases alive <;> simp [check_lock_file, hlt, hpid]
  · cases alive <;> simp [check_lock_file, hlt, hpid]
  · intro l ps pa ke
    cases l with
    | none => rfl
    | some c =>
      by_cases hc : c.length < 2
      · simp [check_lock_file, hc]
      · cases ht : parsePid (c.headD "") with
        | none =>
          rw [List.headD_eq_head?] at ht
          simp [check_lock_file, hc, ht]
        | some q =>
          rw [List.headD_eq_head?] at ht
          cases ps <;> cases pa <;> rcases ke with _ | e <;>
              simp [check_lock_file, hc, ht] <;>
            by_cases he : e = 3 <;> simp [he]

/-- C9 witness: lock file `123\n<timestamp>`; pid 123 alive is refused
in-use, dead is refused stale. -/
theorem check_lock_refusals_witness :
    (check_lock_file (some ["123", "2024-01-01T00:00:00"]) true true none).verdict
        = LockVerdict.refuseInUse
    ∧ (check_lock_file (some ["123", "2024-01-01T00:00:00"]) true false none).verdict
        = LockVerdict.refuseStale := by
  constructor
  · have h := (check_lock_refusals ["123", "2024-01-01T00:00:00"] 123 true
      (by decide) (by decide)).1
    simpa using h
  · have h := (check_lock_refusals ["123", "2024-01-01T00:00:00"] 123 false
      (by decide) (by decide)).1
    simpa using h

/-! ## Claims C1, C2, C3 (engine) -/

/-- C2 (code bug): in the run where the first verification raises a
`ToolingError` (`envTooling`), the engine assigns the status string
`FAILED_TOOLING_ERROR`, which is not among the ten values of the closed
`Literal` enumeration declared in `models.py`. -/
theorem status_assigned_outside_enumeration :
    "FAILED_TOOLING_ERROR"
        ∈ (runWaypoint cfg0 envTooling AgentType.CodeGen (initState 0)).1.statusTrace
    ∧ "FAILED_TOOLING_ERROR" ∉ waypointStatusLiterals := by
  constructor
  · norm_num [runWaypoint, execute_single_waypoint, revisionLoop, execGen,
      engPreCheck, engTracker, BudgetTracker.pre_call_check, engUpdateSpent,
      BudgetTracker.update_spent, verifyWaypoint, EngState.setStatus, cfg0,
      envTooling, initState, maxRevisions, feedbackFor, statusForKind]
  · decide

/-- C1 counterexample: a tooling verification failure at revision 0 does
not end the waypoint. The engine retries: a second generation call is
made (`agentCalls = 2`) and the waypoint finishes `SUCCESS`. -/
theorem tooling_failure_retried_to_success :
    (runWaypoint cfg0 envTooling AgentType.CodeGen (initState 0)).1.statusTrace
        = ["RUNNING", "FAILED_TOOLING_ERROR", "FAILED_TOOLING_ERROR", "SUCCESS"]
    ∧ (runWaypoint cfg0 envTooling AgentType.CodeGen (initState 0)).1.agentCalls = 2
    ∧ (runWaypoint cfg0 envTooling AgentType.CodeGen (initState 0)).2 = true := by
  refine ⟨?_, ?_, ?_⟩ <;>
    norm_num [runWaypoint, execute_single_waypoint, revisionLoop, execGen,
      engPreCheck, engTracker, BudgetTracker.pre_call_check, engUpdateSpent,
      BudgetTracker.update_spent, verifyWaypoint, EngState.setStatus, cfg0,
      envTooling, initState, maxRevisions, feedbackFor, statusForKind]

/-- C1 amended: when verification fails with kind `tooling` at a revision
index below `max_revisions`, the waypoint's turn does not end: the engine
records status `FAILED_TOOLING_ERROR` and continues the revision loop
with the next revision index, exactly as for any other verification
failure. -/
theorem tooling_failure_continues_revision_loop (cfg : EngCfg) (env : EngEnv)
    (agent : AgentType) (st : EngState) (r : ℕ) (rest : List ℕ)
    (st1 : EngState) (detail : String)
    (hagent : agent = AgentType.CodeGen ∨ agent = AgentType.TestWriter)
    (hr : r < maxRevisions)
    (hgen : execGen cfg env { st with revision_attempts := r }
      = (st1, GenResult.genOk))
    (hver : env.verifyResults st1.verifyCalls
      = VerifyOutcome.fail VerifyKind.toolingErr detail) :
    revisionLoop cfg env agent (r :: rest) st
      = revisionLoop cfg env agent rest (toolingContinue st1 detail)
    ∧ (toolingContinue st1 detail).status = "FAILED_TOOLING_ERROR" := by
  constructor
  · simp only [revisionLoop, if_pos hagent, hgen, verifyWaypoint, hver,
      statusForKind, toolingContinue, feedbackFor, if_pos hr]
  · rfl

/-- C1 amended witness: the scenario of `envC1w` instantiates the amended
theorem at revision 0. -/
theorem tooling_failure_continues_revision_loop_witness :
    revisionLoop cfg0 envC1w AgentType.CodeGen (0 :: [1, 2, 3])
        (EngState.setStatus (initState 0) "RUNNING")
      = revisionLoop cfg0 envC1w AgentType.CodeGen [1, 2, 3]
          (toolingContinue C1wSt1 "t") :=
  (tooling_failure_continues_revision_loop cfg0 envC1w AgentType.CodeGen
    (EngState.setStatus (initState 0) "RUNNING") 0 [1, 2, 3] C1wSt1 "t"
    (Or.inl rfl) (by decide)
    (by norm_num [execGen, engPreCheck, engTracker, BudgetTracker.pre_call_check,
      engUpdateSpent, BudgetTracker.update_spent, EngState.setStatus, cfg0,
      envC1w, initState, C1wSt1])
    (by decide)).1

/-- C3 counterexample: when every budget pre-check is over the cap and
the user declines every override, the turn does not end at the first
denial: the engine re-runs the budget gate four times (assigning
`ABORTED` each time) and finally overwrites the status with
`FAILED_REVISIONS`; no generation call is made and the spend is
unchanged. -/
theorem budget_denial_not_immediate :
    (runWaypoint cfg0 envDeny AgentType.CodeGen (initState 0)).1.status
        = "FAILED_REVISIONS"
    ∧ (runWaypoint cfg0 envDeny AgentType.CodeGen (initState 0)).1.statusTrace
        = ["RUNNING", "ABORTED", "ABORTED", "ABORTED", "ABORTED",
           "FAILED_REVISIONS"]
    ∧ (runWaypoint cfg0 envDeny AgentType.CodeGen (initState 0)).1.agentCalls = 0
    ∧ (runWaypoint cfg0 envDeny AgentType.CodeGen (initState 0)).1.checks = 4
    ∧ (runWaypoint cfg0 envDeny AgentType.CodeGen (initState 0)).1.spent = 0 := by
  refine ⟨?_, ?_, ?_, ?_, ?_⟩ <;>
    norm_num [runWaypoint, execute_single_waypoint, revisionLoop, execGen,
      engPreCheck, engTracker, BudgetTracker.pre_call_check, engUpdateSpent,
      BudgetTracker.update_spent, verifyWaypoint, EngState.setStatus, cfg0,
      envDeny, initState, maxRevisions, feedbackFor, statusForKind]

/-- A denied budget pre-check: over the cap and the user declines. -/
theorem engPreCheck_denied (cfg : EngCfg) (env : EngEnv) (st : EngState)
    (hover : cfg.total_budget
        < st.spent
          + ((env.promptTokens st.checks : ℚ) / 1000
              * cfg.price.prompt_cost_per_1k_tokens
            + (4000 : ℚ) / 1000 * cfg.price.completion_cost_per_1k_tokens))
    (hdecline : env.userConfirm st.checks = false) :
    engPreCheck cfg env st = false := by
  unfold engPreCheck engTracker BudgetTracker.pre_call_check
  dsimp only
  rw [if_pos (by simpa using hover)]
  exact hdecline

/-- `_execute_codegen` under a denied budget pre-check: assigns `ABORTED`,
consumes no agent call, spends nothing, and reports a plain failure
without the `llm_output_error` flag. -/
theorem execGen_denied (cfg : EngCfg) (env : EngEnv) (st : EngState)
    (hover : cfg.total_budget
        < st.spent
          + ((env.promptTokens st.checks : ℚ) / 1000
              * cfg.price.prompt_cost_per_1k_tokens
            + (4000 : ℚ) / 1000 * cfg.price.completion_cost_per_1k_tokens))
    (hdecline : env.userConfirm st.checks = false) :
    execGen cfg env st
      = (EngState.setStatus { st with checks := st.checks + 1 } "ABORTED",
         GenResult.genFail false) := by
  unfold execGen
  rw [engPreCheck_denied cfg env st hover hdecline]
  rfl

/-- C3 amended: if the budget pre-check signals stop at every attempt
(over the cap, user declines), the engine sets `ABORTED` at each of the
`max_revisions + 1` budget gates but keeps looping; the waypoint ends
with status `FAILED_REVISIONS`, no generation call is ever made, and the
cumulative spend is unchanged. -/
theorem budget_denial_amended (cfg : EngCfg) (env : EngEnv) (spent0 : ℚ)
    (hover : ∀ i, cfg.total_budget
        < spent0
          + ((env.promptTokens i : ℚ) / 1000
              * cfg.price.prompt_cost_per_1k_tokens
            + (4000 : ℚ) / 1000 * cfg.price.completion_cost_per_1k_tokens))
    (hdecline : ∀ i, env.userConfirm i = false) :
    runWaypoint cfg env AgentType.CodeGen (initState spent0)
      = ({ status := "FAILED_REVISIONS",
           statusTrace := ["RUNNING", "ABORTED", "ABORTED", "ABORTED",
             "ABORTED", "FAILED_REVISIONS"],
           revision_attempts := 3, feedback_history := [], output_files := [],
           wpCost := 0, spent := spent0, agentCalls := 0, checks := 4,
           verifyCalls := 0 }, false) := by
  have h0 := execGen_denied cfg env
    { status := "RUNNING", statusTrace := ["RUNNING"], revision_attempts := 0,
      feedback_history := [], output_files := [], wpCost := 0, spent := spent0,
      agentCalls := 0, checks := 0, verifyCalls := 0 } (hover 0) (hdecline 0)
  have h1 := execGen_denied cfg env
    { status := "ABORTED", statusTrace := ["RUNNING", "ABORTED"],
      revision_attempts := 1, feedback_history := [], output_files := [],
      wpCost := 0, spent := spent0, agentCalls := 0, checks := 1,
      verifyCalls := 0 } (hover 1) (hdecline 1)
  have h2 := execGen_denied cfg env
    { status := "ABORTED", statusTrace := ["RUNNING", "ABORTED", "ABORTED"],
      revision_attempts := 2, feedback_history := [], output_files := [],
      wpCost := 0, spent := spent0, agentCalls := 0, checks := 2,
      verifyCalls := 0 } (hover 2) (hdecline 2)
  have h3 := execGen_denied cfg env
    { status := "ABORTED",
      statusTrace := ["RUNNING", "ABORTED", "ABORTED", "ABORTED"],
      revision_attempts := 3, feedback_history := [], output_files := [],
      wpCost := 0, spent := spent0, agentCalls := 0, checks := 3,
      verifyCalls := 0 } (hover 3) (hdecline 3)
  simp only [runWaypoint, execute_single_waypoint,
    show List.range (maxRevisions + 1) = [0, 1, 2, 3] from rfl,
    revisionLoop, EngState.setStatus, initState, maxRevisions]
  norm_num [h0, h1, h2, h3, EngState.setStatus]

/-- C3 amended witness: the `envDeny` scenario instantiates the amended
theorem with a zero initial spend. -/
theorem budget_denial_amended_witness :
    runWaypoint cfg0 envDeny AgentType.CodeGen (initState 0)
      = ({ status := "FAILED_REVISIONS",
           statusTrace := ["RUNNING", "ABORTED", "ABORTED", "ABORTED",
             "ABORTED", "FAILED_REVISIONS"],
           revision_attempts := 3, feedback_history := [], output_files := [],
           wpCost := 0, spent := 0, agentCalls := 0, checks := 4,
           verifyCalls := 0 }, false) :=
  budget_denial_amended cfg0 envDeny 0
    (fun i => by norm_num [cfg0, envDeny])
    (fun i => rfl)

/-! ## Claim C5 (engine: revision bound and the structural-repair path) -/

/-- The budget commit changes only the money fields. -/
theorem engUpdateSpent_fields (cfg : EngCfg) (st : EngState) (tok : ℕ) :
    (engUpdateSpent cfg st tok).status = st.status
    ∧ (engUpdateSpent cfg st tok).revision_attempts = st.revision_attempts
    ∧ (engUpdateSpent cfg st tok).agentCalls = st.agentCalls := by
  unfold engUpdateSpent engTracker BudgetTracker.update_spent
  exact ⟨rfl, rfl, rfl⟩

/-- No branch of `_execute_codegen` touches the revision counter: the
structural-repair retry happens inside one generation turn. -/
theorem execGen_revision_attempts (cfg : EngCfg) (env : EngEnv) (st : EngState) :
    (execGen cfg env st).1.revision_attempts = st.revision_attempts := by
  unfold execGen
  cases hb : engPreCheck cfg env st
  · rfl
  · dsimp only
    rcases env.agentResults st.agentCalls with ⟨files, tok⟩ | raw | _
    · exact (engUpdateSpent_fields cfg _ tok).2.1
    · dsimp only
      rcases env.agentResults (st.agentCalls + 1) with ⟨files, tok⟩ | raw2 | _
      · exact (engUpdateSpent_fields cfg _ tok).2.1
      · rfl
      · rfl
    · rfl

/-- A structurally valid generation leaves the status untouched. -/
theorem execGen_genOk_status (cfg : EngCfg) (env : EngEnv) (st st' : EngState)
    (h : execGen cfg env st = (st', GenResult.genOk)) :
    st'.status = st.status := by
  unfold execGen at h
  cases hb : engPreCheck cfg env st <;> rw [hb] at h <;>
    simp only [Bool.not_true, Bool.not_false, reduceIte] at h
  · simp at h
  · rcases hA : env.agentResults st.agentCalls with ⟨files, tok⟩ | raw | _ <;>
      rw [hA] at h <;> dsimp only at h
    · have h1 := congrArg Prod.fst h
      dsimp only at h1
      rw [← h1]
      exact (engUpdateSpent_fields cfg _ tok).1
    · rcases hA2 : env.agentResults (st.agentCalls + 1) with ⟨files, tok⟩ | raw2 | _ <;>
        rw [hA2] at h <;> dsimp only at h
      · have h1 := congrArg Prod.fst h
        dsimp only at h1
        rw [← h1]
        exact (engUpdateSpent_fields cfg _ tok).1
      · simp at h
      · simp at h
    · simp at h

/-- A plain generation failure leaves the status untouched unless the
budget gate assigned `ABORTED`. -/
theorem execGen_genFailFalse_status (cfg : EngCfg) (env : EngEnv)
    (st st' : EngState)
    (h : execGen cfg env st = (st', GenResult.genFail false)) :
    st'.status = st.status ∨ st'.status = "ABORTED" := by
  unfold execGen at h
  cases hb : engPreCheck cfg env st <;> rw [hb] at h <;>
    simp only [Bool.not_true, Bool.not_false, reduceIte] at h
  · have h1 := congrArg Prod.fst h
    dsimp only at h1
    rw [← h1]
    exact Or.inr rfl
  · rcases hA : env.agentResults st.agentCalls with ⟨files, tok⟩ | raw | _ <;>
      rw [hA] at h <;> dsimp only at h
    · simp at h
    · rcases hA2 : env.agentResults (st.agentCalls + 1) with ⟨files, tok⟩ | raw2 | _ <;>
        rw [hA2] at h <;> dsimp only at h
      · simp at h
      · simp at h
      · simp at h
    · have h1 := congrArg Prod.fst h
      dsimp only at h1
      rw [← h1]
      exact Or.inl rfl

/-- The `FAILED_LLM_OUTPUT` exit of `_execute_codegen` happens exactly
when a structurally invalid payload is followed by one failed repair
re-invocation: two agent calls in this generation turn, status untouched. -/
theorem execGen_genFailTrue_facts (cfg : EngCfg) (env : EngEnv)
    (st st' : EngState)
    (h : execGen cfg env st = (st', GenResult.genFail true)) :
    (env.agentResults st.agentCalls).isBadJson = true
    ∧ (env.agentResults (st.agentCalls + 1)).isFailure = true
    ∧ st'.agentCalls = st.agentCalls + 2
    ∧ st'.status = st.status := by
  unfold execGen at h
  cases hb : engPreCheck cfg env st <;> rw [hb] at h <;>
    simp only [Bool.not_true, Bool.not_false, reduceIte] at h
  · simp at h
  · rcases hA : env.agentResults st.agentCalls with ⟨files, tok⟩ | raw | _ <;>
      rw [hA] at h <;> dsimp only at h
    · simp at h
    · rcases hA2 : env.agentResults (st.agentCalls + 1) with ⟨files, tok⟩ | raw2 | _ <;>
        rw [hA2] at h <;> dsimp only at h
      · simp at h
      · have h1 := congrArg Prod.fst h
        dsimp only at h1
        rw [← h1]
        exact ⟨rfl, rfl, rfl, rfl⟩
      · have h1 := congrArg Prod.fst h
        dsimp only at h1
        rw [← h1]
        exact ⟨rfl, rfl, rfl, rfl⟩
    · simp at h

/-- Verification does not touch the revision counter. -/
theorem verifyWaypoint_revision_attempts (env : EngEnv) (st : EngState) :
    (verifyWaypoint env st).1.revision_attempts = st.revision_attempts := by
  unfold verifyWaypoint
  rcases env.verifyResults st.verifyCalls with _ | ⟨k, d⟩
  · rfl
  · rcases k <;> rfl

/-- A passing verification leaves the status untouched. -/
theorem verifyWaypoint_pass_status (env : EngEnv) (st st' : EngState)
    (h : verifyWaypoint env st = (st', VerifyOutcome.pass)) :
    st'.status = st.status := by
  unfold verifyWaypoint at h
  rcases hv : env.verifyResults st.verifyCalls with _ | ⟨k, d⟩ <;> rw [hv] at h <;>
    dsimp only at h
  · have h1 := congrArg Prod.fst h
    dsimp only at h1
    rw [← h1]
  · rcases k <;> dsimp only at h <;> simp at h

/-- Every iteration of the revision loop writes a revision index drawn
from the loop's index list, so the counter never exceeds
`max_revisions`. -/
theorem revisionLoop_revision_le (cfg : EngCfg) (env : EngEnv)
    (agent : AgentType) :
    ∀ (lst : List ℕ) (st : EngState),
      (∀ x ∈ lst, x ≤ maxRevisions) → st.revision_attempts ≤ maxRevisions →
      (revisionLoop cfg env agent lst st).1.revision_attempts ≤ maxRevisions := by
  intro lst
  induction lst with
  | nil =>
    intro st _ h2
    simpa [revisionLoop] using h2
  | cons r rest ih =>
    intro st h1 h2
    have hr : r ≤ maxRevisions := h1 r (List.mem_cons_self r rest)
    have hrest : ∀ x ∈ rest, x ≤ maxRevisions :=
      fun x hx => h1 x (List.mem_cons_of_mem r hx)
    by_cases hag : agent = AgentType.CodeGen ∨ agent = AgentType.TestWriter
    · simp only [revisionLoop]
      rw [if_pos hag]
      rcases hE : execGen cfg env { st with revision_attempts := r } with ⟨st1, gr⟩
      have hrev1 : st1.revision_attempts = r := by
        have e := execGen_revision_attempts cfg env { st with revision_attempts := r }
        rw [hE] at e
        simpa using e
      rcases gr with _ | llmErr
      · -- structurally valid output: verification
        dsimp only
        rcases hV : verifyWaypoint env st1 with ⟨st2, vo⟩
        have hrev2 : st2.revision_attempts = r := by
          have e := verifyWaypoint_revision_attempts env st1
          rw [hV] at e
          dsimp only at e
          rw [e, hrev1]
        rcases vo with _ | ⟨k, d⟩
        · dsimp only
          rw [hrev2]
          exact hr
        · dsimp only
          by_cases hlt : r < maxRevisions
          · rw [if_pos hlt]
            exact ih _ hrest (by simp [EngState.setStatus, hrev2, hr])
          · rw [if_neg hlt]
            simpa [EngState.setStatus, hrev2] using hr
      · -- generation failure
        cases llmErr
        · dsimp only
          by_cases hlt : r < maxRevisions
          · rw [if_pos hlt]
            exact ih _ hrest (by simpa using hrev1.le.trans hr)
          · rw [if_neg hlt]
            simpa [EngState.setStatus, hrev1] using hr
        · dsimp only
          simpa [EngState.setStatus, hrev1] using hr
    · simp only [revisionLoop]
      rw [if_neg hag]
      simpa [EngState.setStatus] using hr

/-- If the revision loop ends with status `FAILED_LLM_OUTPUT` (and did
not start there), some generation turn saw a structurally invalid
payload, made exactly one repair re-invocation which also failed, and the
waypoint stopped right there (the final `agentCalls` count is the index
of the invalid payload plus the one repair call). -/
theorem revisionLoop_llm_output (cfg : EngCfg) (env : EngEnv)
    (agent : AgentType) :
    ∀ (lst : List ℕ) (st : EngState),
      (revisionLoop cfg env agent lst st).1.status = "FAILED_LLM_OUTPUT" →
      st.status = "FAILED_LLM_OUTPUT"
      ∨ ∃ c, (env.agentResults c).isBadJson = true
          ∧ (env.agentResults (c + 1)).isFailure = true
          ∧ (revisionLoop cfg env agent lst st).1.agentCalls = c + 2 := by
  intro lst
  induction lst with
  | nil =>
    intro st h
    exact Or.inl (by simpa [revisionLoop] using h)
  | cons r rest ih =>
    intro st h
    simp only [revisionLoop] at h ⊢
    by_cases hag : agent = AgentType.CodeGen ∨ agent = AgentType.TestWriter
    · rw [if_pos hag] at h ⊢
      rcases hE : execGen cfg env { st with revision_attempts := r } with ⟨st1, gr⟩
      rw [hE] at h
      rcases gr with _ | llmErr
      · -- structurally valid output
        dsimp only at h ⊢
        rcases hV : verifyWaypoint env st1 with ⟨st2, vo⟩
        rw [hV] at h
        rcases vo with _ | ⟨k, d⟩
        · -- verification passed: status unchanged from entry
          dsimp only at h
          left
          have e1 := verifyWaypoint_pass_status env st1 st2 hV
          have e2 := execGen_genOk_status cfg env _ st1 hE
          dsimp only at e2
          rw [← e2, ← e1]
          exact h
        · -- verification failed
          dsimp only at h ⊢
          by_cases hlt : r < maxRevisions
          · rw [if_pos hlt] at h ⊢
            rcases ih _ h with hl | ⟨c, hc1, hc2, hc3⟩
            · -- the continuing state carries a FAILED_* status, never LLM output
              rcases k <;> simp [EngState.setStatus, statusForKind] at hl
            · exact Or.inr ⟨c, hc1, hc2, hc3⟩
          · rw [if_neg hlt] at h
            simp [EngState.setStatus] at h
      · cases llmErr
        · -- plain failure: retry or exhaust
          dsimp only at h ⊢
          by_cases hlt : r < maxRevisions
          · rw [if_pos hlt] at h ⊢
            rcases ih _ h with hl | ⟨c, hc1, hc2, hc3⟩
            · rcases execGen_genFailFalse_status cfg env _ st1 hE with he | he
              · left
                dsimp only at he
                rw [← he]
                exact hl
              · rw [he] at hl
                simp at hl
            · exact Or.inr ⟨c, hc1, hc2, hc3⟩
          · rw [if_neg hlt] at h
            simp [EngState.setStatus] at h
        · -- the FAILED_LLM_OUTPUT exit
          dsimp only at h ⊢
          obtain ⟨hb1, hb2, hb3, -⟩ := execGen_genFailTrue_facts cfg env _ st1 hE
          dsimp only at hb1 hb2 hb3
          exact Or.inr ⟨st.agentCalls, hb1, hb2, by simp [EngState.setStatus, hb3]⟩
    · rw [if_neg hag] at h
      simp [EngState.setStatus] at h

/-- C5: for a waypoint run from a fresh state, `revision_attempts` never
exceeds `max_revisions` (3); and the terminal status `FAILED_LLM_OUTPUT`
is reached only via one structural-repair re-invocation directly after
the first structurally invalid payload — the repair happens inside one
generation turn (final `agentCalls` is the invalid payload's index plus
the single repair call) and so is not counted against `max_revisions`. -/
theorem revision_bound_and_llm_output_repair (cfg : EngCfg) (env : EngEnv)
    (agent : AgentType) (spent0 : ℚ) :
    (runWaypoint cfg env agent (initState spent0)).1.revision_attempts
        ≤ maxRevisions
    ∧ ((runWaypoint cfg env agent (initState spent0)).1.status
          = "FAILED_LLM_OUTPUT" →
        ∃ c, (env.agentResults c).isBadJson = true
          ∧ (env.agentResults (c + 1)).isFailure = true
          ∧ (runWaypoint cfg env agent (initState spent0)).1.agentCalls
              = c + 2) := by
  have hrange : ∀ x ∈ List.range (maxRevisions + 1), x ≤ maxRevisions := by
    intro x hx
    have := List.mem_range.mp hx
    omega
  have hbound := revisionLoop_revision_le cfg env agent
    (List.range (maxRevisions + 1))
    ((initState spent0).setStatus "RUNNING") hrange
    (by simp [initState, EngState.setStatus, maxRevisions])
  have hflo := revisionLoop_llm_output cfg env agent
    (List.range (maxRevisions + 1)) ((initState spent0).setStatus "RUNNING")
  simp only [runWaypoint, execute_single_waypoint] at hbound hflo ⊢
  rcases hL : revisionLoop cfg env agent (List.range (maxRevisions + 1))
      ((initState spent0).setStatus "RUNNING") with ⟨stF, ok⟩
  rw [hL] at hbound hflo
  cases ok
  · dsimp only
    refine ⟨hbound, fun hst => ?_⟩
    rcases hflo hst with hl | hr
    · simp [EngState.setStatus, initState] at hl
    · exact hr
  · dsimp only
    constructor
    · simpa [EngState.setStatus] using hbound
    · intro hst
      simp [EngState.setStatus] at hst

/-- C5 witness: in the run where every payload is structurally invalid
(`envBadJson`), the waypoint ends `FAILED_LLM_OUTPUT` after the invalid
payload at index 0 and its single failed repair at index 1, with exactly
two agent calls made. -/
theorem revision_bound_and_llm_output_repair_witness :
    ∃ c, (envBadJson.agentResults c).isBadJson = true
      ∧ (envBadJson.agentResults (c + 1)).isFailure = true
      ∧ (runWaypoint cfg0 envBadJson AgentType.CodeGen (initState 0)).1.agentCalls
          = c + 2 :=
  (revision_bound_and_llm_output_repair cfg0 envBadJson AgentType.CodeGen 0).2
    (by norm_num [runWaypoint, execute_single_waypoint, revisionLoop, execGen,
      engPreCheck, engTracker, BudgetTracker.pre_call_check, engUpdateSpent,
      BudgetTracker.update_spent, verifyWaypoint, EngState.setStatus, cfg0,
      envBadJson, initState, maxRevisions, feedbackFor, statusForKind])
